import Mathlib

/-!
Verification development for the `application_usage_mcp` repository.

Shallow embedding of the two components the checked claims are about:

* `database/db_manager.py` — the `DatabaseManager` class.  The SQLite table
  `usage_data` is modelled as a list of rows plus the next fresh rowid; the
  four CRUD methods are translated operation by operation.  `sqlite3` errors
  raised inside a method's `try` block are modelled by an explicit
  `storage_fault` flag on the one method (`create_usage_log`) whose
  fault path a claim is about: when the flag is set, the transaction context
  manager rolls the transaction back and the `except` handler returns `None`,
  so the embedded function returns `(none, db)` unchanged.

* `mcp/mcp_server.py` — the `MCPServer` class.  The JSON-RPC message
  dispatcher `process_message`, the handshake handler, the tool-call handler
  and the error-response constructor are translated branch by branch.  The
  server object's mutable attributes (`initialized`, `client_capabilities`,
  and the database held by its `db_manager`) form the `ServerState` record;
  there is no per-connection state in the source, so every connection's
  messages are processed against this single shared state.  JSON payloads
  that no claim inspects (tool input schemas, the timestamp inside the stats
  resource) are elided; tool names, error codes, error message strings and
  result/error shapes are kept verbatim.
-/

set_option autoImplicit false

/-! ## Store data model (`database/db_manager.py`) -/

/-- One row of the SQLite table `usage_data`.  `legacy_app` is stored the way
SQLite stores it: as an integer (`1`/`0` after the boolean conversion done by
`create_usage_log`). -/
structure Row where
  id : Nat
  monitor_app_version : String
  platform : String
  user : String
  application_name : String
  application_version : String
  log_date : String
  legacy_app : Nat
  duration_seconds : Int
deriving DecidableEq

/-- The database: current rows plus the next fresh `AUTOINCREMENT` rowid that
an `INSERT` would be assigned (`cursor.lastrowid`). -/
structure Db where
  rows : List Row
  next_id : Nat
deriving DecidableEq

/-- The incoming `log_data` dict of `create_usage_log`: each required key may
be present (`some`) or absent (`none`).  `legacy_app` is submitted as a JSON
boolean per the tool's input schema. -/
structure LogInput where
  monitor_app_version : Option String
  platform : Option String
  user : Option String
  application_name : Option String
  application_version : Option String
  log_date : Option String
  legacy_app : Option Bool
  duration_seconds : Option Int
deriving DecidableEq

/-- A fully populated submission (every required key present). -/
structure LogData where
  monitor_app_version : String
  platform : String
  user : String
  application_name : String
  application_version : String
  log_date : String
  legacy_app : Bool
  duration_seconds : Int
deriving DecidableEq

/-- View a complete record as the dict submitted to `create_usage_log`. -/
def LogData.toInput (d : LogData) : LogInput :=
  ⟨some d.monitor_app_version, some d.platform, some d.user,
   some d.application_name, some d.application_version, some d.log_date,
   some d.legacy_app, some d.duration_seconds⟩

/-- `required_fields` of `DatabaseManager.create_usage_log` (source order). -/
def required_fields : List String :=
  ["monitor_app_version", "platform", "user", "application_name",
   "application_version", "log_date", "legacy_app", "duration_seconds"]

/-- `field in log_data` for the dict model. -/
def LogInput.hasKey (d : LogInput) : String → Bool
  | "monitor_app_version" => d.monitor_app_version.isSome
  | "platform" => d.platform.isSome
  | "user" => d.user.isSome
  | "application_name" => d.application_name.isSome
  | "application_version" => d.application_version.isSome
  | "log_date" => d.log_date.isSome
  | "legacy_app" => d.legacy_app.isSome
  | "duration_seconds" => d.duration_seconds.isSome
  | _ => false

/-- `missing_fields = [field for field in required_fields if field not in
log_data]`. -/
def LogInput.missingFields (d : LogInput) : List String :=
  required_fields.filter (fun f => !(d.hasKey f))

/-- Destructure a dict whose eight required keys are all present.  (After the
`missing_fields` check succeeds, the source reads all eight keys; this is that
read.) -/
def LogInput.complete? (d : LogInput) : Option LogData :=
  match d.monitor_app_version, d.platform, d.user, d.application_name,
        d.application_version, d.log_date, d.legacy_app, d.duration_seconds with
  | some a, some b, some c, some e, some f, some g, some h, some i =>
      some ⟨a, b, c, e, f, g, h, i⟩
  | _, _, _, _, _, _, _, _ => none

/-- `1 if processed_data['legacy_app'] else 0` — SQLite boolean storage. -/
def encodeLegacy (b : Bool) : Nat := if b then 1 else 0

/-- The `WHERE log_date = ? AND user = ? AND application_name = ?` check of the
duplicate-key lookup inside `create_usage_log`. -/
def Row.keyMatches (r : Row) (ld u an : String) : Bool :=
  r.log_date == ld && r.user == u && r.application_name == an

/-- `DatabaseManager.create_usage_log(log_data)`.

Returns the pair (Python return value, database afterwards).  Branches, in
source order: the `missing_fields` validation returns `None` with no write;
a storage fault raised inside the `try` block is rolled back by the
transaction context manager and the `except` handler returns `None`; otherwise
the duplicate-key `SELECT ... fetchone()` decides between the merge `UPDATE`
(add the incoming duration, overwrite the four mutable fields, return the
existing id) and a plain `INSERT` (return `cursor.lastrowid`).  The inner
`none` arm of `complete?` is unreachable when `missingFields` is empty. -/
def create_usage_log (db : Db) (log_data : LogInput) (storage_fault : Bool) :
    Option Nat × Db :=
  if log_data.missingFields ≠ [] then (none, db)
  else
    match log_data.complete? with
    | none => (none, db)
    | some d =>
      if storage_fault then (none, db)
      else
        match db.rows.find? (fun r => r.keyMatches d.log_date d.user d.application_name) with
        | some existing =>
            let new_duration := existing.duration_seconds + d.duration_seconds
            (some existing.id,
             { db with rows := db.rows.map (fun r =>
                 if r.id = existing.id then
                   { r with duration_seconds := new_duration,
                            monitor_app_version := d.monitor_app_version,
                            platform := d.platform,
                            application_version := d.application_version,
                            legacy_app := encodeLegacy d.legacy_app }
                 else r) })
        | none =>
            let row : Row :=
              ⟨db.next_id, d.monitor_app_version, d.platform, d.user,
               d.application_name, d.application_version, d.log_date,
               encodeLegacy d.legacy_app, d.duration_seconds⟩
            (some db.next_id, { rows := db.rows ++ [row], next_id := db.next_id + 1 })

/-- The optional `filters` dict of `get_usage_logs`: exact-match values per
column.  A `legacy_app` filter compares against the stored integer. -/
structure Filters where
  id : Option Nat
  monitor_app_version : Option String
  platform : Option String
  user : Option String
  application_name : Option String
  application_version : Option String
  log_date : Option String
  legacy_app : Option Nat
  duration_seconds : Option Int
deriving DecidableEq

/-- The empty filters dict (also used for the `filters=None` default). -/
def Filters.empty : Filters :=
  ⟨none, none, none, none, none, none, none, none, none⟩

/-- Python `if filters:` — an empty dict is falsy. -/
def Filters.isEmpty (f : Filters) : Bool :=
  f.id.isNone && f.monitor_app_version.isNone && f.platform.isNone &&
  f.user.isNone && f.application_name.isNone && f.application_version.isNone &&
  f.log_date.isNone && f.legacy_app.isNone && f.duration_seconds.isNone

/-- The conjunctive `WHERE col = ? AND ...` built from the filters dict. -/
def Filters.matchesRow (f : Filters) (r : Row) : Bool :=
  (match f.id with | none => true | some v => r.id == v) &&
  (match f.monitor_app_version with | none => true | some v => r.monitor_app_version == v) &&
  (match f.platform with | none => true | some v => r.platform == v) &&
  (match f.user with | none => true | some v => r.user == v) &&
  (match f.application_name with | none => true | some v => r.application_name == v) &&
  (match f.application_version with | none => true | some v => r.application_version == v) &&
  (match f.log_date with | none => true | some v => r.log_date == v) &&
  (match f.legacy_app with | none => true | some v => r.legacy_app == v) &&
  (match f.duration_seconds with | none => true | some v => r.duration_seconds == v)

/-- A row as returned to the caller of `get_usage_logs`: the stored
`legacy_app` integer converted back with `bool(...)`. -/
structure RowOut where
  id : Nat
  monitor_app_version : String
  platform : String
  user : String
  application_name : String
  application_version : String
  log_date : String
  legacy_app : Bool
  duration_seconds : Int
deriving DecidableEq

/-- `dict(row)` plus the `legacy_app = bool(row_dict['legacy_app'])`
conversion done per row by `get_usage_logs`. -/
def Row.toOut (r : Row) : RowOut :=
  ⟨r.id, r.monitor_app_version, r.platform, r.user, r.application_name,
   r.application_version, r.log_date, r.legacy_app != 0, r.duration_seconds⟩

/-- `DatabaseManager.get_usage_logs(filters)`: `SELECT * FROM usage_data`
with a conjunctive `WHERE` clause when `filters` is truthy, each row converted
by `Row.toOut`.  Read-only. -/
def get_usage_logs (db : Db) (filters : Filters) : List RowOut :=
  let rows := if filters.isEmpty then db.rows else db.rows.filter filters.matchesRow
  rows.map Row.toOut

/-- The `updates` dict of `update_usage_log`: value per named column.  (`id`
is not among the updatable columns any caller names; unknown column names
would make the SQL fail, which returns `False`.) -/
structure Updates where
  monitor_app_version : Option String
  platform : Option String
  user : Option String
  application_name : Option String
  application_version : Option String
  log_date : Option String
  legacy_app : Option Nat
  duration_seconds : Option Int
deriving DecidableEq

/-- Python `if not updates:` — an empty dict is falsy. -/
def Updates.isEmpty (u : Updates) : Bool :=
  u.monitor_app_version.isNone && u.platform.isNone && u.user.isNone &&
  u.application_name.isNone && u.application_version.isNone &&
  u.log_date.isNone && u.legacy_app.isNone && u.duration_seconds.isNone

/-- The dynamically built `SET key = ?, ...` list applied to one row: named
columns take the new value, unnamed columns keep the old one. -/
def Row.applyUpdates (u : Updates) (r : Row) : Row :=
  { id := r.id
    monitor_app_version := u.monitor_app_version.getD r.monitor_app_version
    platform := u.platform.getD r.platform
    user := u.user.getD r.user
    application_name := u.application_name.getD r.application_name
    application_version := u.application_version.getD r.application_version
    log_date := u.log_date.getD r.log_date
    legacy_app := u.legacy_app.getD r.legacy_app
    duration_seconds := u.duration_seconds.getD r.duration_seconds }

/-- `DatabaseManager.update_usage_log(log_id, updates)`: empty `updates`
returns `False` before touching the database; otherwise
`UPDATE usage_data SET ... WHERE id = ?` runs and `cursor.rowcount` (the
number of rows whose `id` matched) decides the `False`/`True` return. -/
def update_usage_log (db : Db) (log_id : Nat) (updates : Updates) : Bool × Db :=
  if updates.isEmpty then (false, db)
  else
    let rows := db.rows.map (fun r => if r.id = log_id then r.applyUpdates updates else r)
    if db.rows.countP (fun r => r.id == log_id) = 0 then (false, { db with rows := rows })
    else (true, { db with rows := rows })

/-- `DatabaseManager.delete_usage_log(log_id)`:
`DELETE FROM usage_data WHERE id = ?`; `cursor.rowcount` decides the
`False`/`True` return. -/
def delete_usage_log (db : Db) (log_id : Nat) : Bool × Db :=
  let rows := db.rows.filter (fun r => !(r.id == log_id))
  if db.rows.countP (fun r => r.id == log_id) = 0 then (false, { db with rows := rows })
  else (true, { db with rows := rows })

/-! ## Protocol layer (`mcp/mcp_server.py`) -/

/-- `MCP_PROTOCOL_VERSION`. -/
def MCP_PROTOCOL_VERSION : String := "2024-11-05"

/-- `SERVER_NAME`. -/
def SERVER_NAME : String := "application-usage-mcp"

/-- `SERVER_VERSION`. -/
def SERVER_VERSION : String := "1.0.0"

/-- `ErrorCode.PARSE_ERROR`. -/
def PARSE_ERROR : Int := -32700

/-- `ErrorCode.INVALID_REQUEST`. -/
def INVALID_REQUEST : Int := -32600

/-- `ErrorCode.METHOD_NOT_FOUND`. -/
def METHOD_NOT_FOUND : Int := -32601

/-- `ErrorCode.INVALID_PARAMS`. -/
def INVALID_PARAMS : Int := -32602

/-- `ErrorCode.INTERNAL_ERROR`. -/
def INTERNAL_ERROR : Int := -32603

/-- A JSON-RPC request id as chosen by the caller (string or number). -/
inductive JsonId where
  | str (s : String)
  | num (n : Int)
deriving DecidableEq

/-- Client capabilities: an opaque JSON object, stored but never interpreted
by the server.  Modelled as an association list. -/
abbrev Caps : Type := List (String × String)

/-- The empty capabilities object (default of `params.get("capabilities", {})`). -/
def Caps.empty : Caps := []

/-- The `arguments` object of a `tools/call` request.  The create tool reads
the object itself as the `log_data` dict; the other database tools read the
`filters`, `log_id` and `updates` keys (absent keys accessed with `[...]`
raise `KeyError`).  The `analyze_*` argument keys are read with `.get` and
never raise, and no code that exists consumes them, so they are elided. -/
structure Arguments where
  log_data : LogInput
  filters : Option Filters
  log_id : Option Nat
  updates : Option Updates
deriving DecidableEq

/-- An empty `arguments` object. -/
def Arguments.empty : Arguments :=
  ⟨⟨none, none, none, none, none, none, none, none⟩, none, none, none⟩

/-- The `params` object of a request; each handler reads its own keys. -/
structure Params where
  protocolVersion : Option String
  capabilities : Caps
  name : Option String
  arguments : Arguments
  uri : Option String
deriving DecidableEq

/-- An empty `params` object (default of `message.get("params", {})`). -/
def Params.empty : Params := ⟨none, Caps.empty, none, Arguments.empty, none⟩

/-- A decoded JSON-RPC request: `id`, `method`, `params` as read by
`process_message`. -/
structure Message where
  id : Option JsonId
  method : Option String
  params : Params
deriving DecidableEq

/-- The value a tool call produces on success (the object serialized into the
reply's content text alongside the tool name). -/
inductive ToolResult where
  | createRes (r : Option Nat)
  | logs (l : List RowOut)
  | flag (b : Bool)
deriving DecidableEq

/-- The payload placed under the `result` key of a success reply. -/
inductive ResultPayload where
  | initRes (protocolVersion serverName serverVersion : String)
  | toolsListRes (tools : List String)
  | toolCallRes (tool : String) (r : ToolResult)
  | resourcesListRes (uris : List String)
  | resourceContentsRes (uri : String) (total_logs : Nat)
  | pingRes
deriving DecidableEq

/-- The `{code, message}` object under the `error` key of an error reply. -/
structure ErrObj where
  code : Int
  message : String
deriving DecidableEq

/-- A JSON-RPC reply object: the echoed `id` plus the `result` and `error`
keys (each present or absent — the source builds dicts containing exactly one
of the two, which the claims check). -/
structure Response where
  id : Option JsonId
  result : Option ResultPayload
  error : Option ErrObj
deriving DecidableEq

/-- A reply is well-formed when it carries exactly one of `result`/`error`. -/
def Response.wellFormed (r : Response) : Bool :=
  r.result.isSome ^^ r.error.isSome

/-- `MCPServer.create_error_response(message_id, code, message)`. -/
def create_error_response (message_id : Option JsonId) (code : Int) (message : String) :
    Response :=
  ⟨message_id, none, some ⟨code, message⟩⟩

/-- The mutable state of the one `MCPServer` object: the `initialized` flag,
the stored `client_capabilities`, and the database behind its `db_manager`.
The source keeps all three on the server instance that every accepted
connection shares; no state is allocated per connection. -/
structure ServerState where
  initialized : Bool
  client_capabilities : Caps
  db : Db
deriving DecidableEq

/-- An exception escaping a tool branch into the dispatcher's `except` handler. -/
inductive ExecErr where
  | attributeError (attr : String)
  | keyError (key : String)
deriving DecidableEq

/-- `str(e)` for the modelled exceptions (`AttributeError` from looking up a
method `DatabaseManager` does not define; `KeyError` from a missing
`arguments` key). -/
def ExecErr.text : ExecErr → String
  | .attributeError a => "AttributeError: DatabaseManager object has no attribute " ++ a
  | .keyError k => "KeyError: " ++ k

/-- What one tool branch of `handle_tools_call` does: produce a result and a
database, raise into the `except` handler, or fall into the final `else`
(dead code — every registered tool has a branch). -/
inductive ToolOutcome where
  | ok (r : ToolResult) (db : Db)
  | exc (e : ExecErr)
  | missingImpl
deriving DecidableEq

/-- The keys of `self.tools` in insertion order: every tool `tools/list`
advertises. -/
def toolNames : List String :=
  ["create_usage_log", "get_usage_logs", "update_usage_log", "delete_usage_log",
   "get_unique_users", "get_unique_applications", "get_unique_platforms",
   "analyze_top_users", "analyze_new_users", "analyze_inactive_users",
   "analyze_weekly_additions", "analyze_application_stats",
   "analyze_platform_distribution", "analyze_daily_trends",
   "analyze_user_activity", "analyze_system_overview"]

/-- The `if/elif` chain inside the `try` of `handle_tools_call`.  The four
CRUD tools call the `DatabaseManager` methods embedded above.  The
`get_unique_*` and `analyze_*` branches look up `DatabaseManager` methods
that the class does not define, so the attribute access raises
`AttributeError` before anything runs (the preceding `arguments.get`
reads cannot raise). -/
def dispatchTool (db : Db) (storage_fault : Bool) (t : String) (arguments : Arguments) :
    ToolOutcome :=
  if t == "create_usage_log" then
    let res := create_usage_log db arguments.log_data storage_fault
    .ok (.createRes res.1) res.2
  else if t == "get_usage_logs" then
    .ok (.logs (get_usage_logs db (arguments.filters.getD Filters.empty))) db
  else if t == "update_usage_log" then
    match arguments.log_id with
    | none => .exc (.keyError "log_id")
    | some i =>
      match arguments.updates with
      | none => .exc (.keyError "updates")
      | some u => let res := update_usage_log db i u; .ok (.flag res.1) res.2
  else if t == "delete_usage_log" then
    match arguments.log_id with
    | none => .exc (.keyError "log_id")
    | some i => let res := delete_usage_log db i; .ok (.flag res.1) res.2
  else if t == "get_unique_users" then .exc (.attributeError "get_unique_users")
  else if t == "get_unique_applications" then .exc (.attributeError "get_unique_applications")
  else if t == "get_unique_platforms" then .exc (.attributeError "get_unique_platforms")
  else if t == "analyze_top_users" then .exc (.attributeError "get_top_users_by_app")
  else if t == "analyze_new_users" then .exc (.attributeError "get_new_users_in_period")
  else if t == "analyze_inactive_users" then .exc (.attributeError "get_inactive_users_since")
  else if t == "analyze_weekly_additions" then .exc (.attributeError "get_user_additions_by_week")
  else if t == "analyze_application_stats" then .exc (.attributeError "get_application_usage_stats")
  else if t == "analyze_platform_distribution" then .exc (.attributeError "get_platform_distribution")
  else if t == "analyze_daily_trends" then .exc (.attributeError "get_daily_usage_trends")
  else if t == "analyze_user_activity" then .exc (.attributeError "get_user_activity_summary")
  else if t == "analyze_system_overview" then .exc (.attributeError "get_system_overview")
  else .missingImpl

/-- Python string of an optional string as interpolated into f-strings
(`None` when absent). -/
def optText : Option String → String
  | none => "None"
  | some s => s

/-- `MCPServer.handle_tools_call(message_id, params)`: unknown tool names are
rejected with `INVALID_PARAMS`; a successful branch is wrapped in a success
reply echoing the tool name; an exception is caught and turned into the
`INTERNAL_ERROR` reply `Tool execution failed: ...`. -/
def handle_tools_call (s : ServerState) (storage_fault : Bool)
    (message_id : Option JsonId) (params : Params) : Response × ServerState :=
  let tool_name := params.name
  if !(match tool_name with | some t => toolNames.contains t | none => false) then
    (create_error_response message_id INVALID_PARAMS ("Unknown tool: " ++ optText tool_name), s)
  else
    match tool_name with
    | none => (create_error_response message_id INVALID_PARAMS "Unknown tool: None", s)
    | some t =>
      match dispatchTool s.db storage_fault t params.arguments with
      | .ok r db2 => (⟨message_id, some (.toolCallRes t r), none⟩, { s with db := db2 })
      | .exc e =>
          (create_error_response message_id INTERNAL_ERROR ("Tool execution failed: " ++ e.text), s)
      | .missingImpl =>
          (create_error_response message_id INTERNAL_ERROR ("Tool implementation missing: " ++ t), s)

/-- `MCPServer.handle_initialize(message_id, params)` (embedded under a name
the development can use): stores the declared capabilities first, then
validates the protocol version — mismatch yields the `INVALID_PARAMS`
`Unsupported protocol version` reply without setting `initialized`; a match
sets `initialized` and returns the server info result. -/
def handle_init (s : ServerState) (message_id : Option JsonId) (params : Params) :
    Response × ServerState :=
  let s1 := { s with client_capabilities := params.capabilities }
  if params.protocolVersion == some MCP_PROTOCOL_VERSION then
    (⟨message_id, some (.initRes MCP_PROTOCOL_VERSION SERVER_NAME SERVER_VERSION), none⟩,
     { s1 with initialized := true })
  else
    (create_error_response message_id INVALID_PARAMS
      ("Unsupported protocol version: " ++ optText params.protocolVersion), s1)

/-- `MCPServer.handle_tools_list(message_id)`. -/
def handle_tools_list (s : ServerState) (message_id : Option JsonId) :
    Response × ServerState :=
  (⟨message_id, some (.toolsListRes toolNames), none⟩, s)

/-- `MCPServer.handle_resources_list(message_id)`. -/
def handle_resources_list (s : ServerState) (message_id : Option JsonId) :
    Response × ServerState :=
  (⟨message_id, some (.resourcesListRes ["usage://stats"]), none⟩, s)

/-- `MCPServer.handle_resources_read(message_id, params)`: only
`usage://stats` exists; its payload reports `len(get_usage_logs())` (the
generation timestamp is elided). -/
def handle_resources_read (s : ServerState) (message_id : Option JsonId) (params : Params) :
    Response × ServerState :=
  match params.uri with
  | some u =>
      if u == "usage://stats" then
        (⟨message_id, some (.resourceContentsRes u (get_usage_logs s.db Filters.empty).length),
          none⟩, s)
      else (create_error_response message_id INVALID_PARAMS ("Unknown resource: " ++ u), s)
  | none => (create_error_response message_id INVALID_PARAMS "Unknown resource: None", s)

/-- `MCPServer.handle_ping(message_id)`. -/
def handle_ping (s : ServerState) (message_id : Option JsonId) :
    Response × ServerState :=
  (⟨message_id, some .pingRes, none⟩, s)

/-- `MCPServer.process_message(message)`: reject a missing (or empty, which
Python's `not method` also catches) method; let the handshake through
unconditionally; reject everything else with `Server not initialized` while
the shared `initialized` flag is false; then route by method name. -/
def process_message (storage_fault : Bool) (s : ServerState) (message : Message) :
    Response × ServerState :=
  let message_id := message.id
  match message.method with
  | none => (create_error_response message_id INVALID_REQUEST "Missing method", s)
  | some method =>
    if method == "" then
      (create_error_response message_id INVALID_REQUEST "Missing method", s)
    else if method == "initialize" then
      handle_init s message_id message.params
    else if s.initialized = false then
      (create_error_response message_id INVALID_REQUEST "Server not initialized", s)
    else if method == "tools/list" then handle_tools_list s message_id
    else if method == "tools/call" then handle_tools_call s storage_fault message_id message.params
    else if method == "resources/list" then handle_resources_list s message_id
    else if method == "resources/read" then handle_resources_read s message_id message.params
    else if method == "ping" then handle_ping s message_id
    else (create_error_response message_id METHOD_NOT_FOUND ("Unknown method: " ++ method), s)

/-- One iteration of `MCPServer.handle_client`: a frame that fails JSON
decoding is answered with the id-less `PARSE_ERROR` reply; a decoded message
goes to `process_message`.  Every frame yields exactly one reply; no path
terminates the session. -/
def handle_message_data (storage_fault : Bool) (s : ServerState) (decoded : Option Message) :
    Response × ServerState :=
  match decoded with
  | none => (create_error_response none PARSE_ERROR "Invalid JSON", s)
  | some m => process_message storage_fault s m

/-! ## Helper constructions and basic lemmas -/

/-- A handshake request carrying the given version and capabilities. -/
def initMsg (mid : Option JsonId) (v : Option String) (caps : Caps) : Message :=
  ⟨mid, some "initialize", ⟨v, caps, none, Arguments.empty, none⟩⟩

/-- A `tools/call` request for tool `t` with the given arguments. -/
def toolsCallMsg (mid : Option JsonId) (t : String) (args : Arguments) : Message :=
  ⟨mid, some "tools/call", ⟨none, Caps.empty, some t, args, none⟩⟩

theorem missingFields_toInput (d : LogData) : d.toInput.missingFields = [] := rfl

theorem complete_toInput (d : LogData) : d.toInput.complete? = some d := rfl

theorem missingFields_ne_nil_create (db : Db) (inp : LogInput) (f : Bool)
    (h : inp.missingFields ≠ []) : create_usage_log db inp f = (none, db) := by
  unfold create_usage_log
  simp [h]

theorem fault_create (db : Db) (inp : LogInput) :
    create_usage_log db inp true = (none, db) := by
  unfold create_usage_log
  split
  · rfl
  · cases h : inp.complete? <;> simp

/-! ## Concrete instances used by witnesses and counterexamples -/

/-- A complete submission. -/
def R1W : LogData :=
  ⟨"1.0.0", "Windows", "alice", "chrome.exe", "100.1", "2024-01-15", false, 1800⟩

/-- A second complete submission with the same `(log_date, user,
application_name)` key and different mutable fields. -/
def R2W : LogData :=
  ⟨"1.0.1", "Windows 11", "alice", "chrome.exe", "100.2", "2024-01-15", true, 2400⟩

/-- An empty database. -/
def dbW : Db := ⟨[], 1⟩

/-- A submission dict with every required key absent. -/
def emptyInputW : LogInput := ⟨none, none, none, none, none, none, none, none⟩

/-- A two-row database with distinct ids. -/
def db2W : Db :=
  ⟨[⟨1, "m", "p", "u", "a", "v", "2024-01-01", 1, 10⟩,
    ⟨2, "m", "p", "u2", "a2", "v", "2024-01-02", 0, 20⟩], 3⟩

/-- A one-column update. -/
def updW : Updates := ⟨none, none, none, none, none, none, none, some 99⟩

/-- An empty updates dict. -/
def emptyUpdW : Updates := ⟨none, none, none, none, none, none, none, none⟩

/-- The server state at startup (before any handshake). -/
def s0W : ServerState := ⟨false, Caps.empty, ⟨[], 1⟩⟩

/-- A server state whose shared `initialized` flag is already set. -/
def sIniW : ServerState := ⟨true, Caps.empty, ⟨[], 1⟩⟩

/-- A correct handshake request. -/
def initMsgW : Message := initMsg (some (.str "init-1")) (some MCP_PROTOCOL_VERSION) Caps.empty

/-- The `tools/list` request a second, fresh connection would send first. -/
def freshListMsgW : Message := ⟨some (.str "fresh-1"), some "tools/list", Params.empty⟩

/-- A `tools/call` of the create tool whose arguments dict is empty. -/
def createMsgEmptyW : Message := toolsCallMsg (some (.str "c3")) "create_usage_log" Arguments.empty

/-! ## C4 -/

/-- C4 (amended): a storage fault during a fully validated `Create` is caught
by the `except sqlite3.Error` handler and produces the same observable outcome
as a `Create` that fails field validation — the return value `None` with the
store untouched; nothing distinguishes the two to the caller. -/
theorem C4_fault_outcome_equals_validation_outcome (db : Db) (good bad : LogInput) (f : Bool)
    (hgood : good.missingFields = []) (hbad : bad.missingFields ≠ []) :
    create_usage_log db good true = (none, db) ∧
    create_usage_log db bad f = (none, db) ∧
    create_usage_log db good true = create_usage_log db bad f := by
  refine ⟨fault_create db good, missingFields_ne_nil_create db bad f hbad, ?_⟩
  rw [fault_create db good, missingFields_ne_nil_create db bad f hbad]

/-- Witness for C4 at a concrete database, a concrete complete submission and
a concrete submission with all keys missing. -/
theorem C4_witness :
    (R1W.toInput.missingFields = [] ∧ emptyInputW.missingFields ≠ []) ∧
    (create_usage_log dbW R1W.toInput true = (none, dbW) ∧
     create_usage_log dbW emptyInputW false = (none, dbW) ∧
     create_usage_log dbW R1W.toInput true = create_usage_log dbW emptyInputW false) :=
  ⟨⟨by decide, by decide⟩,
   C4_fault_outcome_equals_validation_outcome dbW R1W.toInput emptyInputW false
     (by decide) (by decide)⟩

/-- C4 counterexample: the claim says a `Create` hitting a storage fault is
observably different from a `Create` failing field validation; on the code
both return `None` and leave the store unchanged — the outcomes are equal. -/
theorem C4_counterexample :
    create_usage_log dbW R1W.toInput true = create_usage_log dbW emptyInputW false ∧
    create_usage_log dbW R1W.toInput true = (none, dbW) := by
  constructor <;> rfl

/-! ## C3 -/

/-- C3 (amended): a `Create` whose record is missing required fields computes
the list of missing keys, logs it, returns `None` without writing to the
store, and raises nothing; the dispatcher therefore wraps the `None` in an
ordinary success reply (`result` present, no `error`) and leaves the server
state unchanged. -/
theorem C3_missing_fields_returns_none_and_success_reply
    (s : ServerState) (f : Bool) (mid : Option JsonId) (inp : LogInput)
    (h : inp.missingFields ≠ []) :
    create_usage_log s.db inp f = (none, s.db) ∧
    handle_tools_call s f mid ⟨none, Caps.empty, some "create_usage_log", ⟨inp, none, none, none⟩, none⟩ =
      (⟨mid, some (.toolCallRes "create_usage_log" (.createRes none)), none⟩, s) := by
  have hc : create_usage_log s.db inp f = (none, s.db) :=
    missingFields_ne_nil_create s.db inp f h
  refine ⟨hc, ?_⟩
  unfold handle_tools_call dispatchTool
  simp [toolNames, hc]

/-- Witness for C3 at a concrete initialized server and the all-keys-missing
submission. -/
theorem C3_witness :
    (emptyInputW.missingFields ≠ []) ∧
    (create_usage_log sIniW.db emptyInputW false = (none, sIniW.db) ∧
     handle_tools_call sIniW false (some (.str "c3"))
         ⟨none, Caps.empty, some "create_usage_log", ⟨emptyInputW, none, none, none⟩, none⟩ =
       (⟨some (.str "c3"), some (.toolCallRes "create_usage_log" (.createRes none)), none⟩,
        sIniW)) :=
  ⟨by decide,
   C3_missing_fields_returns_none_and_success_reply sIniW false (some (.str "c3"))
     emptyInputW (by decide)⟩

/-- C3 counterexample: the claim says the dispatcher surfaces a
missing-fields `Create` as a protocol-level error reply; on the code the
reply to such a call is a success reply (`error` absent, `result` present,
carrying the serialized `None`), and no state changes. -/
theorem C3_counterexample :
    (process_message false sIniW createMsgEmptyW).1.error = none ∧
    (process_message false sIniW createMsgEmptyW).1.result =
      some (.toolCallRes "create_usage_log" (.createRes none)) ∧
    (process_message false sIniW createMsgEmptyW).2 = sIniW := by
  refine ⟨rfl, rfl, rfl⟩

/-! ## C2 -/

/-- C2 (amended): `initialized` is a single flag on the shared server object,
not per-connection state.  While it is false, every request whose method is
present and is not `initialize` is answered with the `INVALID_REQUEST`
(`Server not initialized`) error and the server state does not change; but
once any connection completes the handshake the flag is set for everyone, so
a non-handshake request arriving on a fresh connection is served normally
instead of being rejected. -/
theorem C2_not_initialized_rejected_on_shared_flag
    (f : Bool) (s : ServerState) (m : Message) (name : String)
    (hini : s.initialized = false) (hm : m.method = some name)
    (hne : name ≠ "") (hni : name ≠ "initialize") :
    process_message f s m =
      (create_error_response m.id INVALID_REQUEST "Server not initialized", s) := by
  unfold process_message
  rw [hm]
  simp [hne, hni, hini]

/-- Witness for C2 (amended) at the startup state and a concrete
`tools/list` request. -/
theorem C2_witness :
    (s0W.initialized = false ∧ freshListMsgW.method = some "tools/list" ∧
     "tools/list" ≠ "" ∧ "tools/list" ≠ "initialize") ∧
    process_message false s0W freshListMsgW =
      (create_error_response freshListMsgW.id INVALID_REQUEST "Server not initialized", s0W) :=
  ⟨⟨rfl, rfl, by decide, by decide⟩,
   C2_not_initialized_rejected_on_shared_flag false s0W freshListMsgW "tools/list"
     rfl rfl (by decide) (by decide)⟩

/-- C2 counterexample: the claim says a fresh, never-handshaken connection
always gets an `InvalidState` error for non-handshake methods regardless of
other connections.  The source keeps `initialized` on the one server object
every connection shares, so after one connection's successful handshake the
very first request of a fresh connection (here `tools/list`, processed
against the same shared state because no per-connection state exists) is
served successfully instead of erroring. -/
theorem C2_counterexample :
    (process_message false s0W initMsgW).2.initialized = true ∧
    (process_message false (process_message false s0W initMsgW).2 freshListMsgW).1.error = none ∧
    (process_message false (process_message false s0W initMsgW).2 freshListMsgW).1.result =
      some (.toolsListRes toolNames) := by
  refine ⟨rfl, rfl, rfl⟩

/-! ## C6 -/

/-- C6: on a not-yet-initialized session, a handshake declaring a wrong
protocol version is answered with the `INVALID_PARAMS`
`Unsupported protocol version` error and the session stays uninitialized with
the store untouched; a subsequent handshake with the exactly matching version
succeeds, stores the declared capabilities, and sets `initialized`. -/
theorem C6_version_mismatch_then_retry
    (f : Bool) (s : ServerState) (mid1 mid2 : Option JsonId) (v : String) (caps1 caps2 : Caps)
    (hini : s.initialized = false) (hv : v ≠ MCP_PROTOCOL_VERSION) :
    (process_message f s (initMsg mid1 (some v) caps1)).1 =
      create_error_response mid1 INVALID_PARAMS ("Unsupported protocol version: " ++ v) ∧
    (process_message f s (initMsg mid1 (some v) caps1)).2.initialized = false ∧
    (process_message f s (initMsg mid1 (some v) caps1)).2.db = s.db ∧
    (process_message f (process_message f s (initMsg mid1 (some v) caps1)).2
        (initMsg mid2 (some MCP_PROTOCOL_VERSION) caps2)).1 =
      ⟨mid2, some (.initRes MCP_PROTOCOL_VERSION SERVER_NAME SERVER_VERSION), none⟩ ∧
    (process_message f (process_message f s (initMsg mid1 (some v) caps1)).2
        (initMsg mid2 (some MCP_PROTOCOL_VERSION) caps2)).2.initialized = true ∧
    (process_message f (process_message f s (initMsg mid1 (some v) caps1)).2
        (initMsg mid2 (some MCP_PROTOCOL_VERSION) caps2)).2.client_capabilities = caps2 := by
  have h1 : process_message f s (initMsg mid1 (some v) caps1) =
      (create_error_response mid1 INVALID_PARAMS ("Unsupported protocol version: " ++ v),
       { s with client_capabilities := caps1 }) := by
    unfold process_message initMsg handle_init
    simp [optText, hv]
  have h2 : process_message f { s with client_capabilities := caps1 }
      (initMsg mid2 (some MCP_PROTOCOL_VERSION) caps2) =
      (⟨mid2, some (.initRes MCP_PROTOCOL_VERSION SERVER_NAME SERVER_VERSION), none⟩,
       { s with client_capabilities := caps2, initialized := true }) := by
    unfold process_message initMsg handle_init
    simp
  rw [h1]
  exact ⟨rfl, hini, rfl, by rw [h2], by rw [h2], by rw [h2]⟩

/-- Witness for C6 at the startup state with version `1999-01-01`. -/
theorem C6_witness :
    (s0W.initialized = false ∧ "1999-01-01" ≠ MCP_PROTOCOL_VERSION) ∧
    ((process_message false s0W (initMsg (some (.str "a")) (some "1999-01-01") Caps.empty)).1 =
       create_error_response (some (.str "a")) INVALID_PARAMS
         ("Unsupported protocol version: " ++ "1999-01-01") ∧
     (process_message false s0W (initMsg (some (.str "a")) (some "1999-01-01") Caps.empty)).2.initialized = false ∧
     (process_message false s0W (initMsg (some (.str "a")) (some "1999-01-01") Caps.empty)).2.db = s0W.db ∧
     (process_message false
         (process_message false s0W (initMsg (some (.str "a")) (some "1999-01-01") Caps.empty)).2
         (initMsg (some (.str "b")) (some MCP_PROTOCOL_VERSION) [("tools", "yes")])).1 =
       ⟨some (.str "b"), some (.initRes MCP_PROTOCOL_VERSION SERVER_NAME SERVER_VERSION), none⟩ ∧
     (process_message false
         (process_message false s0W (initMsg (some (.str "a")) (some "1999-01-01") Caps.empty)).2
         (initMsg (some (.str "b")) (some MCP_PROTOCOL_VERSION) [("tools", "yes")])).2.initialized = true ∧
     (process_message false
         (process_message false s0W (initMsg (some (.str "a")) (some "1999-01-01") Caps.empty)).2
         (initMsg (some (.str "b")) (some MCP_PROTOCOL_VERSION) [("tools", "yes")])).2.client_capabilities =
       [("tools", "yes")]) :=
  ⟨⟨rfl, by decide⟩,
   C6_version_mismatch_then_retry false s0W (some (.str "a")) (some (.str "b"))
     "1999-01-01" Caps.empty [("tools", "yes")] rfl (by decide)⟩

/-! ## C9 -/

/-- The advertised tools whose branch calls a `DatabaseManager` method the
class does not define, paired with the name of that missing method. -/
def missingTools : List (String × String) :=
  [("get_unique_users", "get_unique_users"),
   ("get_unique_applications", "get_unique_applications"),
   ("get_unique_platforms", "get_unique_platforms"),
   ("analyze_top_users", "get_top_users_by_app"),
   ("analyze_new_users", "get_new_users_in_period"),
   ("analyze_inactive_users", "get_inactive_users_since"),
   ("analyze_weekly_additions", "get_user_additions_by_week"),
   ("analyze_application_stats", "get_application_usage_stats"),
   ("analyze_platform_distribution", "get_platform_distribution"),
   ("analyze_daily_trends", "get_daily_usage_trends"),
   ("analyze_user_activity", "get_user_activity_summary"),
   ("analyze_system_overview", "get_system_overview")]

/-- C9: on an initialized session, calling any advertised tool other than the
four CRUD tools always produces the `INTERNAL_ERROR` (-32603)
`Tool execution failed` reply — never a success — because the branch looks up
a `DatabaseManager` method that does not exist and the resulting
`AttributeError` lands in the catch-all handler; yet every one of these tools
is listed among the names `tools/list` advertises. -/
theorem C9_missing_impl_tools_always_fail
    (s : ServerState) (f : Bool) (mid : Option JsonId) (args : Arguments)
    (p : String × String) (hini : s.initialized = true) (hp : p ∈ missingTools) :
    process_message f s (toolsCallMsg mid p.1 args) =
      (create_error_response mid INTERNAL_ERROR
        ("Tool execution failed: " ++ (ExecErr.attributeError p.2).text), s) ∧
    p.1 ∈ toolNames ∧
    (handle_tools_list s mid).1.result = some (.toolsListRes toolNames) := by
  refine ⟨?_, ?_, rfl⟩
  · unfold process_message toolsCallMsg
    simp only [hini]
    fin_cases hp <;> rfl
  · fin_cases hp <;> simp [toolNames]

/-- Witness for C9 at a concrete initialized state and the
`get_unique_users` tool. -/
theorem C9_witness :
    (sIniW.initialized = true ∧
     ("get_unique_users", "get_unique_users") ∈ missingTools) ∧
    (process_message false sIniW (toolsCallMsg (some (.num 5)) "get_unique_users" Arguments.empty) =
       (create_error_response (some (.num 5)) INTERNAL_ERROR
         ("Tool execution failed: " ++ (ExecErr.attributeError "get_unique_users").text),
        sIniW) ∧
     "get_unique_users" ∈ toolNames ∧
     (handle_tools_list sIniW (some (.num 5))).1.result = some (.toolsListRes toolNames)) :=
  ⟨⟨rfl, by decide⟩,
   C9_missing_impl_tools_always_fail sIniW false (some (.num 5)) Arguments.empty
     ("get_unique_users", "get_unique_users") rfl (by decide)⟩

/-! ## C5 -/

/-- C5: `Update` with an empty fields dict fails fast, returning `False`
without touching storage; with non-empty fields and an id no row carries it
returns `False` and leaves the store unchanged; with non-empty fields and an
existing id it returns `True` and rewrites exactly the rows carrying that id
by overwriting precisely the named columns (each named column takes the new
value, every unnamed column and the id keep their old values, and rows with a
different id are untouched by the rewrite). -/
theorem C5_update_semantics (db : Db) (log_id : Nat) (u : Updates) (r : Row) :
    (u.isEmpty = true → update_usage_log db log_id u = (false, db)) ∧
    (u.isEmpty = false → db.rows.all (fun s => !(s.id == log_id)) = true →
      update_usage_log db log_id u = (false, db)) ∧
    (u.isEmpty = false → db.rows.any (fun s => s.id == log_id) = true →
      (update_usage_log db log_id u).1 = true ∧
      (update_usage_log db log_id u).2.rows =
        db.rows.map (fun s => if s.id = log_id then s.applyUpdates u else s)) ∧
    ((r.applyUpdates u).id = r.id ∧
     (r.applyUpdates u).monitor_app_version = u.monitor_app_version.getD r.monitor_app_version ∧
     (r.applyUpdates u).platform = u.platform.getD r.platform ∧
     (r.applyUpdates u).user = u.user.getD r.user ∧
     (r.applyUpdates u).application_name = u.application_name.getD r.application_name ∧
     (r.applyUpdates u).application_version = u.application_version.getD r.application_version ∧
     (r.applyUpdates u).log_date = u.log_date.getD r.log_date ∧
     (r.applyUpdates u).legacy_app = u.legacy_app.getD r.legacy_app ∧
     (r.applyUpdates u).duration_seconds = u.duration_seconds.getD r.duration_seconds) := by
  refine ⟨?_, ?_, ?_, rfl, rfl, rfl, rfl, rfl, rfl, rfl, rfl, rfl⟩
  · intro he
    unfold update_usage_log
    simp [he]
  · intro he hall
    rw [List.all_eq_true] at hall
    have hcnt : db.rows.countP (fun s => s.id == log_id) = 0 := by
      rw [List.countP_eq_zero]
      intro a ha hba
      exact absurd hba (by simpa using hall a ha)
    have hmap : db.rows.map (fun s => if s.id = log_id then s.applyUpdates u else s) = db.rows := by
      have : ∀ s ∈ db.rows, (if s.id = log_id then s.applyUpdates u else s) = s := by
        intro a ha
        have := hall a ha
        simp only [Bool.not_eq_true'] at this
        rw [if_neg (by simpa using this)]
      calc db.rows.map (fun s => if s.id = log_id then s.applyUpdates u else s)
          = db.rows.map id := List.map_congr_left this
        _ = db.rows := List.map_id db.rows
    unfold update_usage_log
    simp [he, hcnt, hmap]
  · intro he hany
    rw [List.any_eq_true] at hany
    obtain ⟨a, ha, hba⟩ := hany
    have hcnt : db.rows.countP (fun s => s.id == log_id) ≠ 0 := by
      intro h0
      rw [List.countP_eq_zero] at h0
      exact h0 a ha hba
    unfold update_usage_log
    simp [he, hcnt]

/-- Witness for C5 at a concrete two-row database: empty update on existing
id 1, non-empty update on absent id 5, and non-empty update on existing id 2. -/
theorem C5_witness :
    (emptyUpdW.isEmpty = true ∧
     update_usage_log db2W 1 emptyUpdW = (false, db2W)) ∧
    (updW.isEmpty = false ∧ db2W.rows.all (fun s => !(s.id == 5)) = true ∧
     update_usage_log db2W 5 updW = (false, db2W)) ∧
    (db2W.rows.any (fun s => s.id == 2) = true ∧
     (update_usage_log db2W 2 updW).1 = true ∧
     (update_usage_log db2W 2 updW).2.rows =
       db2W.rows.map (fun s => if s.id = 2 then s.applyUpdates updW else s)) :=
  ⟨⟨by decide,
    (C5_update_semantics db2W 1 emptyUpdW ⟨0, "", "", "", "", "", "", 0, 0⟩).1 (by decide)⟩,
   ⟨by decide, by decide,
    (C5_update_semantics db2W 5 updW ⟨0, "", "", "", "", "", "", 0, 0⟩).2.1 (by decide) (by decide)⟩,
   ⟨by decide,
    (C5_update_semantics db2W 2 updW ⟨0, "", "", "", "", "", "", 0, 0⟩).2.2.1 (by decide) (by decide)⟩⟩

/-! ## C7 -/

theorem length_filter_not_add_countP (p : Row → Bool) (l : List Row) :
    (l.filter (fun r => !(p r))).length + l.countP p = l.length := by
  induction l with
  | nil => rfl
  | cons a t ih =>
    by_cases h : p a = true <;>
      simp [List.filter_cons, List.countP_cons, h] <;> omega

theorem countP_id_eq_one (l : List Row) (x : Nat)
    (hnd : (l.map Row.id).Nodup) (hex : ∃ r ∈ l, r.id = x) :
    l.countP (fun r => r.id == x) = 1 := by
  induction l with
  | nil => obtain ⟨r, hr, _⟩ := hex; exact absurd hr (List.not_mem_nil r)
  | cons a t ih =>
    rw [List.map_cons, List.nodup_cons] at hnd
    obtain ⟨ha, hndt⟩ := hnd
    rw [List.countP_cons]
    by_cases hax : a.id = x
    · have h0 : t.countP (fun r => r.id == x) = 0 := by
        rw [List.countP_eq_zero]
        intro r hr hbeq
        exact ha (by rw [hax, ← (by simpa using hbeq : r.id = x)]; exact List.mem_map_of_mem Row.id hr)
      simp [hax, h0]
    · obtain ⟨r, hr, hrx⟩ := hex
      rcases List.mem_cons.mp hr with h | h
      · exact absurd (h ▸ hrx) hax
      · have := ih hndt ⟨r, h, hrx⟩
        simp [hax, this]

/-- C7: when a row with the given id exists and ids are unique (the table's
primary key), the first `Delete` returns `True` and removes exactly one row;
a second `Delete` of the same id returns `False` and leaves the store exactly
as the first left it, so two deletes end in the same state as one. -/
theorem C7_delete_idempotent (db : Db) (log_id : Nat)
    (hnd : (db.rows.map Row.id).Nodup)
    (hex : db.rows.any (fun r => r.id == log_id) = true) :
    (delete_usage_log db log_id).1 = true ∧
    (delete_usage_log db log_id).2.rows.length + 1 = db.rows.length ∧
    delete_usage_log (delete_usage_log db log_id).2 log_id =
      (false, (delete_usage_log db log_id).2) := by
  rw [List.any_eq_true] at hex
  obtain ⟨a, ha, hba⟩ := hex
  have hone : db.rows.countP (fun r => r.id == log_id) = 1 :=
    countP_id_eq_one db.rows log_id hnd ⟨a, ha, by simpa using hba⟩
  have hd1 : delete_usage_log db log_id =
      (true, { db with rows := db.rows.filter (fun r => !(r.id == log_id)) }) := by
    unfold delete_usage_log
    rw [hone]
    simp
  have hlen : (db.rows.filter (fun r => !(r.id == log_id))).length + 1 = db.rows.length := by
    have := length_filter_not_add_countP (fun r => r.id == log_id) db.rows
    omega
  have hcnt2 : (db.rows.filter (fun r => !(r.id == log_id))).countP (fun r => r.id == log_id) = 0 := by
    rw [List.countP_eq_zero]
    intro r hr
    have hmem := (List.mem_filter.mp hr).2
    simp only [Bool.not_eq_true'] at hmem
    simp [hmem]
  have hself : (db.rows.filter (fun r => !(r.id == log_id))).filter (fun r => !(r.id == log_id)) =
      db.rows.filter (fun r => !(r.id == log_id)) := by
    rw [List.filter_eq_self]
    intro r hr
    exact (List.mem_filter.mp hr).2
  have hd2 : delete_usage_log { db with rows := db.rows.filter (fun r => !(r.id == log_id)) } log_id =
      (false, { db with rows := db.rows.filter (fun r => !(r.id == log_id)) }) := by
    unfold delete_usage_log
    rw [hself, hcnt2]
    simp
  rw [hd1]
  exact ⟨rfl, hlen, hd2⟩

/-- Witness for C7 at the concrete two-row database, deleting id 1. -/
theorem C7_witness :
    ((db2W.rows.map Row.id).Nodup ∧ db2W.rows.any (fun r => r.id == 1) = true) ∧
    ((delete_usage_log db2W 1).1 = true ∧
     (delete_usage_log db2W 1).2.rows.length + 1 = db2W.rows.length ∧
     delete_usage_log (delete_usage_log db2W 1).2 1 = (false, (delete_usage_log db2W 1).2)) :=
  ⟨⟨by decide, by decide⟩, C7_delete_idempotent db2W 1 (by decide) (by decide)⟩

/-! ## C1 -/

/-- The row the `INSERT` branch of `create_usage_log` writes for a complete
submission `d`. -/
def insertedRow (db : Db) (d : LogData) : Row :=
  ⟨db.next_id, d.monitor_app_version, d.platform, d.user, d.application_name,
   d.application_version, d.log_date, encodeLegacy d.legacy_app, d.duration_seconds⟩

theorem find?_append_single (l : List Row) (p : Row → Bool) (a : Row)
    (hn : l.find? p = none) (ha : p a = true) : (l ++ [a]).find? p = some a := by
  rw [List.find?_append, hn]
  simp [List.find?, ha]

theorem map_if_id (l : List Row) (x : Nat) (g : Row → Row)
    (h : l.all (fun r => !(r.id == x)) = true) :
    l.map (fun r => if r.id = x then g r else r) = l := by
  have hcong : ∀ r ∈ l, (if r.id = x then g r else r) = r := by
    intro r hr
    have hrf := List.all_eq_true.mp h r hr
    simp only [Bool.not_eq_true'] at hrf
    rw [if_neg (by simpa using hrf)]
  rw [List.map_congr_left hcong]
  simp

theorem filter_key_nil (l : List Row) (ld u an : String)
    (h : l.all (fun r => !(r.keyMatches ld u an)) = true) :
    l.filter (fun r => r.keyMatches ld u an) = [] := by
  rw [List.filter_eq_nil_iff]
  intro x hx
  have hx2 := List.all_eq_true.mp h x hx
  simp only [Bool.not_eq_true'] at hx2
  simp [hx2]

theorem create_insert (db : Db) (d : LogData)
    (hnone : db.rows.all (fun r => !(r.keyMatches d.log_date d.user d.application_name)) = true) :
    create_usage_log db d.toInput false =
      (some db.next_id, ⟨db.rows ++ [insertedRow db d], db.next_id + 1⟩) := by
  have hf : db.rows.find? (fun r => r.keyMatches d.log_date d.user d.application_name) = none := by
    rw [List.find?_eq_none]
    intro x hx
    have hx2 := List.all_eq_true.mp hnone x hx
    simp only [Bool.not_eq_true'] at hx2
    simp [hx2]
  unfold create_usage_log insertedRow
  simp [missingFields_toInput, complete_toInput, hf]

theorem create_merge (db : Db) (d : LogData) (existing : Row)
    (hfind : db.rows.find? (fun r => r.keyMatches d.log_date d.user d.application_name) =
      some existing) :
    create_usage_log db d.toInput false =
      (some existing.id,
       { db with rows := db.rows.map (fun r =>
           if r.id = existing.id then
             { r with duration_seconds := existing.duration_seconds + d.duration_seconds,
                      monitor_app_version := d.monitor_app_version,
                      platform := d.platform,
                      application_version := d.application_version,
                      legacy_app := encodeLegacy d.legacy_app }
           else r) }) := by
  unfold create_usage_log
  simp [missingFields_toInput, complete_toInput, hfind]

/-- C1: creating twice with the same `(log_date, user, application_name)` key
on a store that did not contain the key leaves exactly one row for that key;
that row keeps the first insert's id and key columns, carries the sum of the
two submitted durations, and carries the second submission's
`monitor_app_version`, `platform`, `application_version` and (encoded)
`legacy_app`; both calls return the same id.  (The freshness hypothesis says
no pre-existing row already carries the rowid SQLite will assign next, which
the `id` primary key guarantees.) -/
theorem C1_duplicate_key_create_merges (db : Db) (R1 R2 : LogData)
    (hld : R1.log_date = R2.log_date) (hu : R1.user = R2.user)
    (han : R1.application_name = R2.application_name)
    (hnone : db.rows.all
      (fun r => !(r.keyMatches R1.log_date R1.user R1.application_name)) = true)
    (hfresh : db.rows.all (fun r => !(r.id == db.next_id)) = true) :
    (create_usage_log db R1.toInput false).1 = some db.next_id ∧
    (create_usage_log (create_usage_log db R1.toInput false).2 R2.toInput false).1 =
      some db.next_id ∧
    ((create_usage_log (create_usage_log db R1.toInput false).2 R2.toInput false).2.rows.filter
        (fun r => r.keyMatches R1.log_date R1.user R1.application_name)) =
      [⟨db.next_id, R2.monitor_app_version, R2.platform, R1.user, R1.application_name,
        R2.application_version, R1.log_date, encodeLegacy R2.legacy_app,
        R1.duration_seconds + R2.duration_seconds⟩] := by
  have h1 := create_insert db R1 hnone
  have hrow1 : (insertedRow db R1).keyMatches R2.log_date R2.user R2.application_name = true := by
    simp [insertedRow, Row.keyMatches, hld, hu, han]
  have hn2 : db.rows.find?
      (fun r => r.keyMatches R2.log_date R2.user R2.application_name) = none := by
    rw [List.find?_eq_none]
    intro x hx
    have hx2 := List.all_eq_true.mp hnone x hx
    rw [← hld, ← hu, ← han]
    simp only [Bool.not_eq_true'] at hx2
    simp [hx2]
  have hfind := find?_append_single db.rows
    (fun r => r.keyMatches R2.log_date R2.user R2.application_name) (insertedRow db R1) hn2 hrow1
  have h2 := create_merge ⟨db.rows ++ [insertedRow db R1], db.next_id + 1⟩ R2
    (insertedRow db R1) hfind
  have hid : (insertedRow db R1).id = db.next_id := rfl
  rw [h1, h2, hid]
  refine ⟨rfl, rfl, ?_⟩
  have hmapfix := map_if_id db.rows db.next_id
    (fun r => { r with duration_seconds := (insertedRow db R1).duration_seconds + R2.duration_seconds,
                       monitor_app_version := R2.monitor_app_version,
                       platform := R2.platform,
                       application_version := R2.application_version,
                       legacy_app := encodeLegacy R2.legacy_app }) hfresh
  have hfilnil := filter_key_nil db.rows R1.log_date R1.user R1.application_name hnone
  simp only [List.map_append, List.map_cons, List.map_nil]
  rw [hmapfix, List.filter_append, hfilnil]
  simp [insertedRow, Row.keyMatches]

/-- Witness for C1: two concrete submissions for the same key on an empty
store. -/
theorem C1_witness :
    (R1W.log_date = R2W.log_date ∧ R1W.user = R2W.user ∧
     R1W.application_name = R2W.application_name ∧
     dbW.rows.all (fun r => !(r.keyMatches R1W.log_date R1W.user R1W.application_name)) = true ∧
     dbW.rows.all (fun r => !(r.id == dbW.next_id)) = true) ∧
    ((create_usage_log dbW R1W.toInput false).1 = some dbW.next_id ∧
     (create_usage_log (create_usage_log dbW R1W.toInput false).2 R2W.toInput false).1 =
       some dbW.next_id ∧
     ((create_usage_log (create_usage_log dbW R1W.toInput false).2 R2W.toInput false).2.rows.filter
         (fun r => r.keyMatches R1W.log_date R1W.user R1W.application_name)) =
       [⟨dbW.next_id, R2W.monitor_app_version, R2W.platform, R1W.user, R1W.application_name,
         R2W.application_version, R1W.log_date, encodeLegacy R2W.legacy_app,
         R1W.duration_seconds + R2W.duration_seconds⟩]) :=
  ⟨⟨rfl, rfl, rfl, by decide, by decide⟩,
   C1_duplicate_key_create_merges dbW R1W R2W rfl rfl rfl (by decide) (by decide)⟩

/-! ## C10 -/

/-- C10: a `Create` of a record with `legacy_app = b` stores the flag as the
integer `1` if `b` is true and `0` otherwise, and a `List` that returns the
created row converts the stored integer back with `bool(...)`, so the
submitted boolean round-trips exactly (here: inserting into a store with no
row for the key, then listing by the returned id). -/
theorem C10_legacy_app_bool_roundtrip (db : Db) (R : LogData)
    (hnone : db.rows.all
      (fun r => !(r.keyMatches R.log_date R.user R.application_name)) = true)
    (hfresh : db.rows.all (fun r => !(r.id == db.next_id)) = true) :
    (create_usage_log db R.toInput false).1 = some db.next_id ∧
    (create_usage_log db R.toInput false).2.rows =
      db.rows ++ [⟨db.next_id, R.monitor_app_version, R.platform, R.user, R.application_name,
        R.application_version, R.log_date, if R.legacy_app then 1 else 0,
        R.duration_seconds⟩] ∧
    get_usage_logs (create_usage_log db R.toInput false).2
        ⟨some db.next_id, none, none, none, none, none, none, none, none⟩ =
      [⟨db.next_id, R.monitor_app_version, R.platform, R.user, R.application_name,
        R.application_version, R.log_date, R.legacy_app, R.duration_seconds⟩] := by
  have h1 := create_insert db R hnone
  rw [h1]
  refine ⟨rfl, by simp [insertedRow, encodeLegacy], ?_⟩
  unfold get_usage_logs
  have hne : Filters.isEmpty ⟨some db.next_id, none, none, none, none, none, none, none, none⟩ =
      false := rfl
  rw [hne]
  have hfil : db.rows.filter
      (Filters.matchesRow ⟨some db.next_id, none, none, none, none, none, none, none, none⟩) =
      [] := by
    rw [List.filter_eq_nil_iff]
    intro x hx
    have hx2 := List.all_eq_true.mp hfresh x hx
    simp only [Bool.not_eq_true'] at hx2
    simp [Filters.matchesRow, hx2]
  simp only [Bool.false_eq_true, if_false, List.filter_append, hfil, List.nil_append]
  have hmatch : Filters.matchesRow
      ⟨some db.next_id, none, none, none, none, none, none, none, none⟩
      (insertedRow db R) = true := by
    simp [Filters.matchesRow, insertedRow]
  simp only [List.filter_cons, hmatch, if_true, List.filter_nil]
  cases hR : R.legacy_app <;>
    simp [Row.toOut, insertedRow, encodeLegacy, hR]

/-- Witness for C10: a concrete record with `legacy_app = true` inserted into
an empty store and read back. -/
theorem C10_witness :
    (dbW.rows.all (fun r => !(r.keyMatches R2W.log_date R2W.user R2W.application_name)) = true ∧
     dbW.rows.all (fun r => !(r.id == dbW.next_id)) = true) ∧
    ((create_usage_log dbW R2W.toInput false).1 = some dbW.next_id ∧
     (create_usage_log dbW R2W.toInput false).2.rows =
       dbW.rows ++ [⟨dbW.next_id, R2W.monitor_app_version, R2W.platform, R2W.user,
         R2W.application_name, R2W.application_version, R2W.log_date,
         if R2W.legacy_app then 1 else 0, R2W.duration_seconds⟩] ∧
     get_usage_logs (create_usage_log dbW R2W.toInput false).2
         ⟨some dbW.next_id, none, none, none, none, none, none, none, none⟩ =
       [⟨dbW.next_id, R2W.monitor_app_version, R2W.platform, R2W.user, R2W.application_name,
         R2W.application_version, R2W.log_date, R2W.legacy_app, R2W.duration_seconds⟩]) :=
  ⟨⟨by decide, by decide⟩,
   C10_legacy_app_bool_roundtrip dbW R2W (by decide) (by decide)⟩

/-! ## C8 -/

theorem handle_init_shape (s : ServerState) (mid : Option JsonId) (p : Params) :
    ((handle_init s mid p).1).id = mid ∧ ((handle_init s mid p).1).wellFormed = true := by
  unfold handle_init
  split <;> simp [create_error_response, Response.wellFormed]

theorem handle_tools_call_shape (s : ServerState) (f : Bool) (mid : Option JsonId) (p : Params) :
    ((handle_tools_call s f mid p).1).id = mid ∧
    ((handle_tools_call s f mid p).1).wellFormed = true := by
  unfold handle_tools_call
  cases hn : p.name with
  | none => simp [create_error_response, Response.wellFormed]
  | some t =>
    by_cases hc : t ∈ toolNames
    · cases ht : dispatchTool s.db f t p.arguments <;>
        simp [hc, ht, create_error_response, Response.wellFormed]
    · simp [hc, create_error_response, Response.wellFormed]

theorem handle_resources_read_shape (s : ServerState) (mid : Option JsonId) (p : Params) :
    ((handle_resources_read s mid p).1).id = mid ∧
    ((handle_resources_read s mid p).1).wellFormed = true := by
  unfold handle_resources_read
  cases hu : p.uri with
  | none => simp [create_error_response, Response.wellFormed]
  | some u =>
    simp only [hu]
    split <;> simp [create_error_response, Response.wellFormed]

theorem process_message_shape (f : Bool) (s : ServerState) (m : Message) :
    ((process_message f s m).1).id = m.id ∧
    ((process_message f s m).1).wellFormed = true := by
  unfold process_message
  cases hm : m.method with
  | none => simp [create_error_response, Response.wellFormed]
  | some name =>
    by_cases h1 : name == ""
    · simp [h1, create_error_response, Response.wellFormed]
    · rw [Bool.not_eq_true] at h1
      by_cases h2 : name == "initialize"
      · simpa [h1, h2] using handle_init_shape s m.id m.params
      · rw [Bool.not_eq_true] at h2
        by_cases h3 : s.initialized = false
        · simp [h1, h2, h3, create_error_response, Response.wellFormed]
        · by_cases h4 : name == "tools/list"
          · simp [h1, h2, h3, h4, handle_tools_list, Response.wellFormed]
          · rw [Bool.not_eq_true] at h4
            by_cases h5 : name == "tools/call"
            · simpa [h1, h2, h3, h4, h5] using handle_tools_call_shape s f m.id m.params
            · rw [Bool.not_eq_true] at h5
              by_cases h6 : name == "resources/list"
              · simp [h1, h2, h3, h4, h5, h6, handle_resources_list, Response.wellFormed]
              · rw [Bool.not_eq_true] at h6
                by_cases h7 : name == "resources/read"
                · simpa [h1, h2, h3, h4, h5, h6, h7] using
                    handle_resources_read_shape s m.id m.params
                · rw [Bool.not_eq_true] at h7
                  by_cases h8 : name == "ping"
                  · simp [h1, h2, h3, h4, h5, h6, h7, h8, handle_ping, Response.wellFormed]
                  · rw [Bool.not_eq_true] at h8
                    simp [h1, h2, h3, h4, h5, h6, h7, h8,
                      create_error_response, Response.wellFormed]

/-- C8: every frame gets exactly one reply; the reply to a decodable request
echoes the request's `id` verbatim (error replies included), the reply to an
undecodable frame carries `id = null`, and every reply carries exactly one of
`result` and `error`.  Totality of the embedded dispatcher is the
no-termination part: each case returns a reply instead of ending the
session. -/
theorem C8_reply_id_and_exactly_one_of_result_error
    (f : Bool) (s : ServerState) (d : Option Message) :
    ((handle_message_data f s d).1).id = d.bind Message.id ∧
    ((handle_message_data f s d).1).wellFormed = true := by
  cases d with
  | none => exact ⟨rfl, rfl⟩
  | some m => simpa [handle_message_data] using process_message_shape f s m
